import Mathlib

/-!
Verification of the analysis-result normalization pipeline in
`src/services/aiAnalysisService.ts`.

Modelling conventions of this shallow embedding:
* JavaScript strings are modelled as `List Char`; string literals from the
  source appear as `"...".data`.
* JavaScript numbers that carry confidence scores are modelled as exact
  rationals (`ℚ`); the floating-point comparison `jaccard >= 0.6` is
  expressed over integers as `3 * union ≤ 5 * inter`.
* Network calls, JSON decoding and `Math.random()` are oracles: their
  outcomes are explicit parameters of the embedded functions.
-/

/-- `Math.min` on rationals, written out so that it evaluates. -/
def qmin (a b : ℚ) : ℚ :=
  if a ≤ b then a else b

/-- `Math.max` on rationals, written out so that it evaluates. -/
def qmax (a b : ℚ) : ℚ :=
  if a ≤ b then b else a

/-- The JavaScript whitespace class `\s` restricted to the ASCII characters
that can actually occur in the strings handled by the pipeline. -/
def isJsSpace (c : Char) : Bool :=
  c = ' ' || c = '\t' || c = '\n' || c = '\r' || c = '\x0b' || c = '\x0c'

/-- `String.prototype.toLowerCase` on a character list. -/
def jsToLower (cs : List Char) : List Char :=
  cs.map Char.toLower

/-- `String.prototype.trim`: drop whitespace from both ends. -/
def jsTrim (cs : List Char) : List Char :=
  ((cs.dropWhile isJsSpace).reverse.dropWhile isJsSpace).reverse

/-- `replace(/\s+/g, ' ')`: each maximal run of whitespace becomes one space. -/
def collapseWs : List Char → List Char
  | [] => []
  | [c] => if isJsSpace c then [' '] else [c]
  | c :: d :: rest =>
    if isJsSpace c && isJsSpace d then collapseWs (d :: rest)
    else (if isJsSpace c then ' ' else c) :: collapseWs (d :: rest)

/-- `replace(/[^a-z0-9\s]/g, ' ')` (applied after lowercasing): keep lowercase
letters, digits and whitespace, replace every other character by a space. -/
def keepAlnumOrSpace (c : Char) : Char :=
  if ('a' ≤ c && c ≤ 'z') || ('0' ≤ c && c ≤ '9') || isJsSpace c then c else ' '

/-- `normalizeTextForCompare` (source lines 476-481): lowercase, strip
non-alphanumeric characters, collapse whitespace, trim. -/
def normalizeTextForCompare (text : List Char) : List Char :=
  jsTrim (collapseWs ((jsToLower text).map keepAlnumOrSpace))

/-- `String.prototype.split(sep)` for a one-character separator: empty
segments are preserved and the result is never the empty list. -/
def splitOnChar (sep : Char) : List Char → List (List Char)
  | [] => [[]]
  | c :: cs =>
    if c = sep then [] :: splitOnChar sep cs
    else
      match splitOnChar sep cs with
      | [] => [[c]]
      | t :: ts => (c :: t) :: ts

/-- `String.prototype.includes`: `containsSub hay pat` is true when `pat`
occurs as a contiguous substring of `hay`. -/
def containsSub (hay pat : List Char) : Bool :=
  decide (pat <:+: hay)

/-- The token set of a normalized string: `new Set(n.split(' '))`
(source lines 489-490), kept as a duplicate-free list in first-seen order. -/
def tokensOf (n : List Char) : List (List Char) :=
  (splitOnChar ' ' n).dedup

/-- `inter` of `areTextsSimilar` (source lines 491-492): the number of tokens
of `na` that also occur among the tokens of `nb`. -/
def interCount (na nb : List Char) : ℕ :=
  ((tokensOf na).filter (fun t => decide (t ∈ tokensOf nb))).length

/-- `union` of `areTextsSimilar` (source line 493). -/
def unionCount (na nb : List Char) : ℕ :=
  (tokensOf na).length + (tokensOf nb).length - interCount na nb

/-- `jaccard >= 0.6` (source lines 494-495), with `jaccard = 1` when the
union is empty; the floating comparison `inter/union >= 0.6` is the integer
comparison `3 * union ≤ 5 * inter`. -/
def jaccardGE (na nb : List Char) : Bool :=
  if unionCount na nb = 0 then true
  else decide (3 * unionCount na nb ≤ 5 * interCount na nb)

/-- The containment check of `areTextsSimilar` (source lines 497-499): the
shorter normalized string has length at least 20 and occurs inside the
longer one. -/
def containmentCheck (na nb : List Char) : Bool :=
  decide (20 ≤ (if na.length < nb.length then na else nb).length) &&
    containsSub (if na.length < nb.length then nb else na)
      (if na.length < nb.length then na else nb)

/-- `areTextsSimilar` (source lines 483-500): after normalization, true when
both sides are non-empty and they are equal, their token-set Jaccard overlap
is at least 0.6, or the shorter side (of length at least 20) is a substring of
the longer one. -/
def areTextsSimilar (a b : List Char) : Bool :=
  if (normalizeTextForCompare a).isEmpty || (normalizeTextForCompare b).isEmpty
  then false
  else if normalizeTextForCompare a = normalizeTextForCompare b then true
  else if jaccardGE (normalizeTextForCompare a) (normalizeTextForCompare b)
  then true
  else containmentCheck (normalizeTextForCompare a) (normalizeTextForCompare b)

/-- The `concise` entry pushed by `dedupeAndTrimList` (source line 513): the
trimmed entry, truncated to its first 277 characters (re-trimmed) plus an
ellipsis when longer than 280 characters. -/
def conciseOf (raw : List Char) : List Char :=
  if 280 < (jsTrim raw).length then jsTrim ((jsTrim raw).take 277) ++ "…".data
  else jsTrim raw

/-- Loop body of `dedupeAndTrimList` (source lines 504-515): skip blank
entries, entries similar to the summary and entries similar to an already
kept entry; keep the `concise` form of everything else. -/
def dedupeStep (summary : List Char) (result : List (List Char))
    (raw : List Char) : List (List Char) :=
  if raw = [] then result
  else if jsTrim raw = [] then result
  else if areTextsSimilar (jsTrim raw) summary then result
  else if result.any (fun kept => areTextsSimilar kept (jsTrim raw)) then result
  else result ++ [conciseOf raw]

/-- `dedupeAndTrimList` (source lines 502-518). -/
def dedupeAndTrimList (items : List (List Char)) (summary : List Char) :
    List (List Char) :=
  (items.foldl (dedupeStep summary) []).take 5

/-- The record descriptor consumed by the pipeline (`recordData`). -/
structure RecordData where
  title : List Char
  description : List Char
  recordType : List Char
  serviceDate : List Char
  fileUrl : Option (List Char)
  fileName : Option (List Char)
deriving DecidableEq

/-- JavaScript truthiness of an optional string: present and non-empty. -/
def jsTruthyS : Option (List Char) → Bool
  | some s => !s.isEmpty
  | none => false

/-- `x || d` for strings: `d` when `x` is absent or empty. -/
def jsOrStr (x : Option (List Char)) (d : List Char) : List Char :=
  match x with
  | some s => if s.isEmpty then d else s
  | none => d

/-- The three canned lists returned by `defaultsByRecordType`. -/
structure SectionDefaults where
  findings : List (List Char)
  warnings : List (List Char)
  recs : List (List Char)
deriving DecidableEq

/-- `defaultsByRecordType` (source lines 520-563): canned findings, warnings
and recommendations keyed on the lowercased record type. -/
def defaultsByRecordType (recordData : RecordData) : SectionDefaults :=
  let type := jsToLower recordData.recordType
  if type = "prescription".data then
    { findings :=
        ["Prescribed medication(s) and dosage instructions documented".data,
         "Prescriber identity and authorization present".data,
         "Patient identification and prescription date recorded".data]
      warnings :=
        ["Check for potential drug–drug interactions".data,
         "Monitor for medication-specific adverse effects".data]
      recs :=
        ["Adhere strictly to dosing schedule".data,
         "Report side effects to provider promptly".data,
         "Bring prescription to follow-up review".data] }
  else if type = "lab results".data || type = "lab".data ||
      type = "labresult".data then
    { findings :=
        ["Key analytes reported with reference ranges".data,
         "Flagged abnormal values require review".data]
      warnings :=
        ["Correlate abnormal results clinically before acting".data]
      recs :=
        ["Repeat or extend tests if clinically indicated".data,
         "Discuss results with healthcare provider".data] }
  else
    { findings :=
        ["Record type: ".data ++
          (if recordData.recordType.isEmpty then "Health Record".data
           else recordData.recordType),
         "Document date: ".data ++
          (if recordData.serviceDate.isEmpty then "Unknown".data
           else recordData.serviceDate)]
      warnings := ["Limited clinical details available for assessment".data]
      recs := ["Review with healthcare provider".data] }

/-- The bundle returned by `ensureDiverseSections`. -/
structure DiverseSections where
  summary : List Char
  findings : List (List Char)
  warnings : List (List Char)
  recs : List (List Char)
deriving DecidableEq

/-- `ensureDiverseSections` (source lines 565-581): trim the summary, run the
list normalizer on each section against it, and backfill any section that
ends up empty from `defaultsByRecordType`. -/
def ensureDiverseSections (summary : List Char) (findings warnings recs :
    List (List Char)) (recordData : RecordData) : DiverseSections :=
  let cleanSummary := jsTrim summary
  let cleanFindings := dedupeAndTrimList findings cleanSummary
  let cleanWarnings := dedupeAndTrimList warnings cleanSummary
  let cleanRecs := dedupeAndTrimList recs cleanSummary
  let defaults := defaultsByRecordType recordData
  { summary := cleanSummary
    findings := if cleanFindings.length = 0 then defaults.findings else cleanFindings
    warnings := if cleanWarnings.length = 0 then defaults.warnings else cleanWarnings
    recs := if cleanRecs.length = 0 then defaults.recs else cleanRecs }

/-- The structured result produced by the pipeline (`AIAnalysisResult`). -/
structure AIAnalysisResult where
  summary : List Char
  keyFindings : List (List Char)
  riskWarnings : List (List Char)
  recommendations : List (List Char)
  confidence : ℚ
  analysisType : List Char
deriving DecidableEq

/-- Outcome of `JSON.parse` on a provider reply, as read by the structured
strategy of `parseAIResponse`: each field is `none` when absent (for the three
lists, also when present but not array-shaped; for `confidence`, when present
but not numeric). -/
structure ParsedPayload where
  summary : Option (List Char)
  keyFindings : Option (List (List Char))
  riskWarnings : Option (List (List Char))
  recommendations : Option (List (List Char))
  confidence : Option ℚ
  analysisType : Option (List Char)
deriving DecidableEq

/-- The synthesized default summary of the structured strategy
(source line 600). -/
def synthesizedSummary (recordData : RecordData) : List Char :=
  "This ".data ++ recordData.recordType ++ " record titled \"".data ++
    recordData.title ++ "\" was created on ".data ++ recordData.serviceDate ++
    ".".data

/-- Structured (JSON) strategy of `parseAIResponse` (source lines 596-629):
read the decoded fields with defaults, substitute the built-in fallback lists
when a list is empty, diversify, and pass a numeric confidence through
unchanged (default 0.85). -/
def parseStructured (parsed : ParsedPayload) (recordData : RecordData) :
    AIAnalysisResult :=
  let baseSummary := jsOrStr parsed.summary (synthesizedSummary recordData)
  let baseFindings := parsed.keyFindings.getD []
  let baseWarnings := parsed.riskWarnings.getD []
  let baseRecs := parsed.recommendations.getD []
  let fallbackFindings :=
    if 0 < baseFindings.length then baseFindings
    else
      ["Record type: ".data ++ recordData.recordType,
       "Document date: ".data ++ recordData.serviceDate,
       if jsTruthyS recordData.fileName then
         "File provided: ".data ++ recordData.fileName.getD []
       else "Title: ".data ++ recordData.title]
  let fallbackWarnings :=
    if 0 < baseWarnings.length then baseWarnings
    else
      ["Limited clinical details available for comprehensive assessment".data,
       "Obtain additional clinical context if available".data]
  let fallbackRecs :=
    if 0 < baseRecs.length then baseRecs
    else
      ["Discuss document with healthcare provider for detailed interpretation".data,
       "Maintain regular follow-up appointments".data,
       "Keep this document for future medical reference".data]
  let diversified := ensureDiverseSections baseSummary fallbackFindings
    fallbackWarnings fallbackRecs recordData
  { summary := diversified.summary
    keyFindings := diversified.findings
    riskWarnings := diversified.warnings
    recommendations := diversified.recs
    confidence := parsed.confidence.getD 0.85
    analysisType := jsOrStr parsed.analysisType "Groq AI Analysis".data }

/-- `line.toLowerCase()` contains one of the keywords (source line 685). -/
def lineHasKeyword (line : List Char) (keywords : List (List Char)) : Bool :=
  keywords.any (fun keyword => containsSub (jsToLower line) keyword)

/-- `/^\d+\./.test(s)`: one or more digits followed by a dot. -/
def startsWithNumberDot (cs : List Char) : Bool :=
  cs.takeWhile Char.isDigit ≠ [] &&
    (cs.dropWhile Char.isDigit).head? = some '.'

/-- A trimmed line begins with a bullet or numbered-list marker
(source line 689). -/
def isBulletLine (t : List Char) : Bool :=
  t.head? = some '-' || t.head? = some '•' || t.head? = some '*' ||
    startsWithNumberDot t

/-- `replace(/^[-•*]\s*/, '')`: strip one leading bullet marker and the
whitespace after it. -/
def stripBulletMarker (t : List Char) : List Char :=
  match t with
  | c :: rest =>
    if c = '-' || c = '•' || c = '*' then rest.dropWhile isJsSpace else t
  | [] => t

/-- `replace(/^\d+\.\s*/, '')`: strip a leading numbered-list marker and the
whitespace after it. -/
def stripNumberMarker (t : List Char) : List Char :=
  if t.takeWhile Char.isDigit ≠ [] then
    match t.dropWhile Char.isDigit with
    | '.' :: rest => rest.dropWhile isJsSpace
    | _ => t
  else t

/-- Both marker-stripping replacements, chained as in source line 690. -/
def stripListMarkers (t : List Char) : List Char :=
  stripNumberMarker (stripBulletMarker t)

/-- The lines following the first keyword-anchored line, or `none` when no
line contains a keyword (source lines 683-687). -/
def findKeywordSection (keywords : List (List Char)) :
    List (List Char) → Option (List (List Char))
  | [] => none
  | line :: rest =>
    if lineHasKeyword line keywords then some rest
    else findKeywordSection keywords rest

/-- The collection loop of `extractListItems` (source lines 688-694): keep
marker lines with their markers stripped, stop at the first blank line or
line containing a colon, and skip any other line. -/
def collectListItems : List (List Char) → List (List Char)
  | [] => []
  | line :: rest =>
    let t := jsTrim line
    if isBulletLine t then stripListMarkers t :: collectListItems rest
    else if t = [] || t.contains ':' then []
    else collectListItems rest

/-- `extractListItems` (source lines 679-700). -/
def extractListItems (text : List Char) (keywords : List (List Char)) :
    List (List Char) :=
  match findKeywordSection keywords (splitOnChar '\n' text) with
  | none => []
  | some rest => (collectListItems rest).take 5

/-- `calculateConfidence` (source lines 702-715): base 0.7 plus signal
bonuses, clamped to [0.6, 0.95]. -/
def calculateConfidence (aiText : List Char) (recordData : RecordData) : ℚ :=
  let c : ℚ := 0.7
  let c := if 200 < aiText.length then c + 0.1 else c
  let c :=
    if containsSub aiText "medical".data || containsSub aiText "health".data
    then c + 0.1 else c
  let c :=
    if containsSub aiText "recommend".data || containsSub aiText "suggest".data
    then c + 0.1 else c
  let c := if recordData.recordType = "Lab Results".data then c + 0.05 else c
  let c := if recordData.recordType = "Imaging".data then c + 0.05 else c
  qmin 0.95 (qmax 0.6 c)

/-- Unstructured (text) strategy of `parseAIResponse` (source lines 630-676):
first line as summary (with a synthesized default), keyword-anchored list
extraction, heuristic confidence, then diversification. -/
def parseUnstructured (aiText : List Char) (recordData : RecordData) :
    AIAnalysisResult :=
  let summary := jsOrStr ((splitOnChar '\n' aiText).head?)
    (synthesizedSummary recordData ++
      " The record provides important medical information that requires proper analysis and follow-up.".data)
  let keyFindings := extractListItems aiText
    ["findings".data, "key findings".data, "observations".data]
  let riskWarnings := extractListItems aiText
    ["warnings".data, "risks".data, "concerns".data, "urgent".data]
  let recommendations := extractListItems aiText
    ["recommendations".data, "suggestions".data, "advice".data,
     "next steps".data]
  let confidence := calculateConfidence aiText recordData
  let diversified := ensureDiverseSections summary
    (if 0 < keyFindings.length then keyFindings
     else
       ["Record type: ".data ++ recordData.recordType,
        "Document date: ".data ++ recordData.serviceDate,
        if jsTruthyS recordData.fileName then
          "File provided: ".data ++ recordData.fileName.getD []
        else "Title: ".data ++ recordData.title])
    (if 0 < riskWarnings.length then riskWarnings
     else
       ["Limited clinical details available for comprehensive assessment".data,
        "Obtain additional clinical context if available".data])
    (if 0 < recommendations.length then recommendations
     else
       ["Discuss document with healthcare provider for detailed interpretation".data,
        "Maintain regular follow-up appointments".data,
        "Keep this document for future medical reference".data])
    recordData
  { summary := diversified.summary
    keyFindings := diversified.findings
    riskWarnings := diversified.warnings
    recommendations := diversified.recs
    confidence := confidence
    analysisType := "AI Analysis".data }

/-- The decoded content of a provider reply: either text that `JSON.parse`
accepts (already decoded into its fields) or an unstructured text blob. -/
inductive ProviderReply where
  | structured (payload : ParsedPayload)
  | unstructured (text : List Char)
deriving DecidableEq

/-- `parseAIResponse` (source lines 583-677): the structured strategy when
the reply decodes as JSON, the text strategy otherwise. -/
def parseAIResponse (reply : ProviderReply) (recordData : RecordData) :
    AIAnalysisResult :=
  match reply with
  | .structured payload => parseStructured payload recordData
  | .unstructured text => parseUnstructured text recordData

/-- Case-insensitive substring test, modelling `/literal/i.test(s)` for a
literal pattern. -/
def containsCI (hay pat : List Char) : Bool :=
  containsSub (jsToLower hay) (jsToLower pat)

/-- Strip a case-insensitive literal prefix, returning the rest on success. -/
def stripPrefixCI : List Char → List Char → Option (List Char)
  | [], rest => some rest
  | _ :: _, [] => none
  | p :: ps, c :: cs => if c.toLower = p then stripPrefixCI ps cs else none

/-- After the digits of a candidate match of `/\d+\s*years?\s*old/i`: optional
whitespace, `year`, an optional `s`, optional whitespace, `old`. -/
def yearsOldAfterDigits (cs : List Char) : Bool :=
  match stripPrefixCI "year".data (cs.dropWhile isJsSpace) with
  | none => false
  | some r2 =>
    let tailOk := fun (r : List Char) =>
      (stripPrefixCI "old".data (r.dropWhile isJsSpace)).isSome
    match r2 with
    | c :: rest => if c.toLower = 's' then (tailOk rest || tailOk r2) else tailOk r2
    | [] => tailOk r2

/-- A match of `/(\d+)\s*years?\s*old/i` starting exactly here: the maximal
leading digit run followed by the rest of the pattern. -/
def matchAgeAt (cs : List Char) : Option (List Char) :=
  let ds := cs.takeWhile Char.isDigit
  if ds = [] then none
  else if yearsOldAfterDigits (cs.dropWhile Char.isDigit) then some ds
  else none

/-- Digits captured by the leftmost match of `/(\d+)\s*years?\s*old/i`, as in
`description.match(...)` (source lines 898 and 937). -/
def firstAgeDigits : List Char → Option (List Char)
  | [] => none
  | c :: rest =>
    match matchAgeAt (c :: rest) with
    | some ds => some ds
    | none => firstAgeDigits rest

/-- `parseInt` on a run of decimal digits. -/
def digitsToNat (ds : List Char) : Nat :=
  ds.foldl (fun n c => n * 10 + (c.toNat - '0'.toNat)) 0

/-- The boolean signal detectors of `generateEnhancedLocalAnalysis`
(source lines 737-749). -/
structure LocalSignals where
  hasHighBP : Bool
  hasCholesterol : Bool
  hasChestPain : Bool
  hasShortnessOfBreath : Bool
  hasDiabetes : Bool
  hasHeartDisease : Bool
  hasFamilyHistory : Bool
  hasAge : Bool
  hasSmoking : Bool
  hasNormalValues : Bool
  hasAbnormalValues : Bool
  hasExercise : Bool
  hasMedication : Bool
deriving DecidableEq

/-- Evaluate all signal detectors on the description (source lines 737-749). -/
def localSignals (description : List Char) : LocalSignals :=
  { hasHighBP := containsCI description "high blood pressure".data ||
      containsCI description "150/95".data ||
      containsCI description "hypertension".data ||
      containsCI description "elevated blood pressure".data
    hasCholesterol := containsCI description "cholesterol".data ||
      containsCI description "lipid".data || containsCI description "ldl".data ||
      containsCI description "hdl".data ||
      containsCI description "elevated cholesterol".data
    hasChestPain := containsCI description "chest pain".data ||
      containsCI description "angina".data ||
      containsCI description "chest discomfort".data
    hasShortnessOfBreath := containsCI description "shortness of breath".data ||
      containsCI description "dyspnea".data ||
      containsCI description "breathing difficulty".data
    hasDiabetes := containsCI description "diabetes".data ||
      containsCI description "glucose".data ||
      containsCI description "hba1c".data ||
      containsCI description "diabetic".data ||
      containsCI description "blood sugar".data
    hasHeartDisease := containsCI description "heart disease".data ||
      containsCI description "cardiac".data ||
      containsCI description "myocardial".data ||
      containsCI description "cardiovascular".data
    hasFamilyHistory := containsCI description "family history".data ||
      containsCI description "hereditary".data ||
      containsCI description "genetic".data
    hasAge := (firstAgeDigits description).isSome
    hasSmoking := containsCI description "smoker".data ||
      containsCI description "non-smoker".data ||
      containsCI description "tobacco".data ||
      containsCI description "smoking".data
    hasNormalValues := containsCI description "normal".data ||
      containsCI description "good".data ||
      containsCI description "within range".data ||
      containsCI description "stable".data
    hasAbnormalValues := containsCI description "abnormal".data ||
      containsCI description "elevated".data ||
      containsCI description "high".data ||
      containsCI description "low".data ||
      containsCI description "concerning".data
    hasExercise := containsCI description "exercise".data ||
      containsCI description "physical activity".data ||
      containsCI description "workout".data
    hasMedication := containsCI description "medication".data ||
      containsCI description "drug".data ||
      containsCI description "prescription".data ||
      containsCI description "treatment".data }

/-- Intermediate state of the local generator: the four sections plus the
confidence value assigned inside the record-type branches (which the final
result does not use; source line 1049 uses the recomputed value instead). -/
structure LocalParts where
  summary : List Char
  keyFindings : List (List Char)
  riskWarnings : List (List Char)
  recommendations : List (List Char)
  midConfidence : ℚ
deriving DecidableEq

/-- `${fileName?.split('.').pop()?.toUpperCase()}` (source line 835). -/
def fileExtensionUpper (fileName : Option (List Char)) : List Char :=
  match fileName with
  | some fn => (((splitOnChar '.' fn).getLast?).getD []).map Char.toUpper
  | none => "undefined".data

/-- The record-type dispatch of `generateEnhancedLocalAnalysis`
(source lines 751-933), producing the initial sections and mid-branch
confidence. -/
def localBranch (recordData : RecordData) (sig : LocalSignals) : LocalParts :=
  let description := recordData.description
  let title := recordData.title
  let recordType := recordData.recordType
  if recordType = "Lab Results".data then
    let conf : ℚ := 0.75
    let conf := if sig.hasHighBP then 0.95 else conf
    let conf := if sig.hasCholesterol then qmax conf 0.90 else conf
    { summary := "Comprehensive AI analysis of ".data ++ title ++
        ": Advanced laboratory data interpretation reveals critical health indicators and cardiovascular risk assessment.".data
      keyFindings :=
        (if sig.hasHighBP then
          ["CRITICAL: Elevated blood pressure (150/95 mmHg) - Stage 2 Hypertension".data,
           "Immediate cardiovascular risk identified".data] else []) ++
        (if sig.hasCholesterol then
          ["Elevated cholesterol levels detected - cardiovascular risk factor".data,
           "Lipid panel abnormalities require intervention".data] else []) ++
        (if sig.hasDiabetes then
          ["Diabetes management assessment required".data] else []) ++
        (if sig.hasNormalValues then
          ["Some laboratory values within normal ranges".data] else [])
      riskWarnings :=
        (if sig.hasHighBP then
          ["High blood pressure significantly increases stroke and heart attack risk".data,
           "Target organ damage possible at this pressure level".data] else []) ++
        (if sig.hasCholesterol then
          ["High cholesterol accelerates atherosclerosis progression".data] else [])
      recommendations :=
        (if sig.hasHighBP then
          ["URGENT: Immediate antihypertensive medication consideration".data,
           "Implement DASH diet and sodium restriction (<2g/day)".data,
           "Regular blood pressure monitoring (daily)".data,
           "Cardiology consultation within 1 week".data] else []) ++
        (if sig.hasCholesterol then
          ["Statin therapy initiation recommended".data,
           "Dietary modification: Mediterranean diet".data,
           "Regular lipid panel monitoring (3-month intervals)".data] else []) ++
        (if sig.hasDiabetes then
          ["HbA1c monitoring every 3 months".data,
           "Endocrinology consultation if not established".data] else []) ++
        (if sig.hasNormalValues then
          ["Continue current management strategies".data] else [])
      midConfidence := conf }
  else if recordType = "Imaging".data then
    { summary := "Advanced AI imaging analysis of ".data ++ title ++
        ": Comprehensive structural assessment and diagnostic interpretation.".data
      keyFindings :=
        ["Chest X-ray demonstrates clear bilateral lung fields".data,
         "No acute pulmonary pathology identified".data,
         "Cardiothoracic ratio within normal limits".data,
         "No evidence of pleural effusion or pneumothorax".data] ++
        (if sig.hasShortnessOfBreath then
          ["Patient reports exertional dyspnea - requires further evaluation".data]
         else [])
      riskWarnings :=
        if sig.hasShortnessOfBreath then
          ["Dyspnea with normal imaging may indicate cardiac etiology".data]
        else []
      recommendations :=
        if sig.hasShortnessOfBreath then
          ["Echocardiogram and stress testing recommended".data,
           "Pulmonary function tests indicated".data]
        else
          ["Continue routine surveillance imaging as indicated".data,
           "Follow-up imaging per clinical guidelines".data]
      midConfidence := if sig.hasShortnessOfBreath then 0.85 else 0.80 }
  else if recordType = "Physical Exam".data then
    { summary := "Comprehensive AI physical examination analysis of ".data ++
        title ++
        ": Holistic health assessment and preventive care recommendations.".data
      keyFindings :=
        ["Complete physical examination performed".data,
         "Vital signs within acceptable parameters".data,
         "No acute physical findings detected".data] ++
        (if sig.hasNormalValues then
          ["Patient demonstrates good health maintenance practices".data]
         else [])
      riskWarnings := []
      recommendations :=
        if sig.hasNormalValues then
          ["Continue current preventive care regimen".data,
           "Maintain annual comprehensive examinations".data]
        else
          ["Address any identified health concerns".data,
           "Schedule appropriate follow-up care".data]
      midConfidence := if sig.hasNormalValues then 0.88 else 0.75 }
  else if recordType = "prescription".data then
    let hasImage := jsTruthyS recordData.fileUrl &&
      jsTruthyS recordData.fileName &&
      (match recordData.fileName with
       | some fn =>
         containsSub (jsToLower fn) ".jpg".data ||
         containsSub (jsToLower fn) ".jpeg".data ||
         containsSub (jsToLower fn) ".png".data ||
         containsSub (jsToLower fn) ".pdf".data
       | none => false)
    if hasImage then
      { summary := "Prescription Document Analysis of ".data ++ title ++
          ": Comprehensive review of prescription document content including medication details, dosages, and clinical instructions.".data
        keyFindings :=
          ["Prescription document (".data ++
             fileExtensionUpper recordData.fileName ++ ") created on ".data ++
             recordData.serviceDate,
           "Document contains medication prescribing information and dosage instructions".data,
           "Prescriber signature and authorization details present".data,
           "Patient identification and prescription number documented".data]
        riskWarnings :=
          ["Verify medication dosage and frequency with prescribing physician".data,
           "Check for potential drug interactions with current medications".data,
           "Ensure proper storage and handling of prescribed medications".data]
        recommendations :=
          ["Follow medication schedule exactly as prescribed".data,
           "Complete full course of treatment unless directed otherwise".data,
           "Schedule follow-up appointment to monitor medication effectiveness".data,
           "Report any side effects or concerns to healthcare provider immediately".data,
           "Keep prescription document for insurance and refill purposes".data]
        midConfidence := 0.80 }
    else
      { summary := "Prescription Analysis of ".data ++ title ++
          ": Medication review and therapeutic monitoring recommendations based on current medical standards.".data
        keyFindings :=
          ["Prescription record created on ".data ++ recordData.serviceDate,
           "Medication management requires careful monitoring".data,
           "Therapeutic compliance is essential for optimal outcomes".data]
        riskWarnings :=
          ["Medication interactions may occur with other drugs".data,
           "Side effects monitoring is important".data]
        recommendations :=
          ["Take medication exactly as prescribed by healthcare provider".data,
           "Report any adverse effects immediately".data,
           "Keep regular follow-up appointments for medication review".data,
           "Maintain medication list for all healthcare providers".data]
        midConfidence := 0.80 }
  else
    let nonSmoker := containsSub (jsToLower description) "non-smoker".data
    { summary := "Medical Record Analysis of ".data ++ title ++
        ": Comprehensive health documentation review and clinical assessment recommendations.".data
      keyFindings :=
        (if 0 < description.length then
          ["Health record contains detailed medical information".data,
           "Content analysis completed successfully".data] ++
          (if sig.hasAbnormalValues then
            ["Some abnormal values or concerning findings detected".data] else []) ++
          (if sig.hasNormalValues then
            ["Most values appear within normal ranges".data] else []) ++
          (if sig.hasMedication then
            ["Medication information present in record".data] else []) ++
          (if sig.hasExercise then
            ["Physical activity mentioned in health record".data] else []) ++
          (if sig.hasAge then
            match firstAgeDigits description with
            | some ds =>
              ["Patient age ".data ++ (toString (digitsToNat ds)).data ++
                " - age-appropriate health considerations".data]
            | none => []
           else []) ++
          (if sig.hasFamilyHistory then
            ["Family history information documented".data] else []) ++
          (if sig.hasSmoking then
            [if nonSmoker then
              "Non-smoking status - positive health factor".data
             else "Smoking status mentioned in record".data] else [])
        else
          ["Health record analysis completed".data,
           "Limited content available for detailed analysis".data])
      riskWarnings :=
        if 0 < description.length then
          (if sig.hasAbnormalValues then
            ["Abnormal findings require medical attention".data] else []) ++
          (if sig.hasFamilyHistory then
            ["Family history may increase certain health risks".data] else []) ++
          (if sig.hasSmoking && !nonSmoker then
            ["Smoking significantly increases health risks".data] else [])
        else []
      recommendations :=
        (if 0 < description.length then
          (if sig.hasAbnormalValues then
            ["Follow up with healthcare provider for abnormal values".data] else []) ++
          (if sig.hasNormalValues then
            ["Continue current health maintenance practices".data] else []) ++
          (if sig.hasMedication then
            ["Ensure medication compliance as prescribed".data] else []) ++
          (if sig.hasExercise then
            ["Continue regular exercise routine".data] else []) ++
          (if sig.hasAge then
            match firstAgeDigits description with
            | some ds =>
              if 50 ≤ digitsToNat ds then
                ["Age-appropriate screening recommended".data]
              else []
            | none => []
           else []) ++
          (if sig.hasFamilyHistory then
            ["Consider enhanced screening due to family history".data] else []) ++
          (if sig.hasSmoking then
            [if nonSmoker then "Continue to avoid tobacco products".data
             else "Smoking cessation strongly recommended".data] else [])
        else []) ++
        ["Continue regular health monitoring".data,
         "Follow healthcare provider recommendations".data,
         "Maintain open communication with medical team".data]
      midConfidence := 0.75 }

/-- Age-based post-pass (source lines 936-949). -/
def applyAgePass (description : List Char) (sig : LocalSignals)
    (p : LocalParts) : LocalParts :=
  if sig.hasAge then
    match firstAgeDigits description with
    | some ds =>
      let age := digitsToNat ds
      { p with recommendations := p.recommendations ++
          (if 50 ≤ age then
            ["Age-appropriate cancer screening recommended".data,
             "Bone density assessment if indicated".data] else []) ++
          (if 65 ≤ age then
            ["Annual cognitive assessment recommended".data,
             "Fall risk evaluation indicated".data] else []) }
    | none => p
  else p

/-- Family-history post-pass (source lines 952-957). -/
def applyFamilyHistoryPass (sig : LocalSignals) (p : LocalParts) : LocalParts :=
  if sig.hasFamilyHistory then
    { p with
      keyFindings := p.keyFindings ++
        ["Significant family history identified - genetic risk factor".data]
      recommendations := p.recommendations ++
        ["Enhanced screening protocols recommended".data,
         "Consider genetic counseling referral".data]
      midConfidence := qmax p.midConfidence 0.85 }
  else p

/-- Smoking-status post-pass (source lines 960-969). -/
def applySmokingPass (description : List Char) (sig : LocalSignals)
    (p : LocalParts) : LocalParts :=
  if sig.hasSmoking then
    if containsSub (jsToLower description) "non-smoker".data then
      { p with
        keyFindings := p.keyFindings ++
          ["Non-smoking status - positive health factor".data]
        recommendations := p.recommendations ++
          ["Continue tobacco avoidance".data] }
    else
      { p with
        riskWarnings := p.riskWarnings ++
          ["Smoking significantly increases cardiovascular and cancer risk".data]
        recommendations := p.recommendations ++
          ["Smoking cessation counseling strongly recommended".data,
           "Consider nicotine replacement therapy".data] }
  else p

/-- Wholesale overwrite of the three lists when the description is empty
(source lines 972-1005). -/
def applyEmptyDescriptionOverwrite (recordData : RecordData)
    (p : LocalParts) : LocalParts :=
  if recordData.description.length = 0 then
    if recordData.recordType = "prescription".data then
      { p with
        keyFindings :=
          ["Prescription record created on ".data ++ recordData.serviceDate,
           "Medication management requires careful monitoring".data,
           "Therapeutic compliance is essential for optimal outcomes".data]
        riskWarnings :=
          ["Medication interactions may occur with other drugs".data,
           "Side effects monitoring is important".data]
        recommendations :=
          ["Take medication exactly as prescribed by healthcare provider".data,
           "Report any adverse effects immediately".data,
           "Keep regular follow-up appointments for medication review".data,
           "Maintain medication list for all healthcare providers".data] }
    else
      { p with
        keyFindings :=
          ["Record type: ".data ++ recordData.recordType,
           "Created on: ".data ++ recordData.serviceDate,
           "Title indicates: ".data ++ recordData.title]
        riskWarnings :=
          ["Limited clinical details available for comprehensive assessment".data,
           "Recommend obtaining additional medical history if needed".data]
        recommendations :=
          ["Review with healthcare provider for detailed interpretation".data,
           "Maintain regular follow-up appointments".data,
           "Keep record for future medical reference".data] }
  else p

/-- Backfill of `keyFindings` when still empty (source lines 1008-1011). -/
def backfillFindings (kf : List (List Char)) : List (List Char) :=
  if kf.length = 0 then
    ["Health record analysis completed".data,
     "No acute abnormalities detected".data]
  else kf

/-- Backfill of `recommendations` when still empty (source lines 1013-1016). -/
def backfillRecommendations (recs : List (List Char)) : List (List Char) :=
  if recs.length = 0 then
    ["Continue regular health monitoring".data,
     "Follow healthcare provider guidance".data]
  else recs

/-- The dynamic confidence of the local generator before the random jitter
(source lines 1019-1038): base 0.6 with signal- and content-driven bonuses
and penalties (each `dc += x` / `dc -= x` step of the source is one summand),
clamped to [0.4, 0.95]. -/
def localDynamicConfidence (description : List Char) (sig : LocalSignals)
    (kf recs : List (List Char)) : ℚ :=
  qmin 0.95 (qmax 0.4
    ((0.6 : ℚ) +
      (if 100 < description.length then 0.1 else 0) +
      (if 200 < description.length then 0.1 else 0) +
      (if 2 < kf.length then 0.1 else 0) +
      (if 2 < recs.length then 0.1 else 0) +
      (if sig.hasHighBP || sig.hasCholesterol || sig.hasChestPain then 0.15
       else 0) +
      (if sig.hasAge then 0.05 else 0) +
      (if sig.hasFamilyHistory then 0.1 else 0) +
      (if sig.hasMedication then 0.05 else 0) -
      (if description.length < 50 then 0.2 else 0) -
      (if !sig.hasHighBP && !sig.hasCholesterol && !sig.hasChestPain &&
          !sig.hasDiabetes then 0.1 else 0)))

/-- The record-type branch followed by the three unconditional post-passes
(source lines 751-969), before the empty-description overwrite. -/
def localPassChain (recordData : RecordData) : LocalParts :=
  applySmokingPass recordData.description (localSignals recordData.description)
    (applyFamilyHistoryPass (localSignals recordData.description)
      (applyAgePass recordData.description (localSignals recordData.description)
        (localBranch recordData (localSignals recordData.description))))

/-- The sections of the local generator after all branches, post-passes,
overwrites and backfills (source lines 725-1016). -/
def localAnalysisParts (recordData : RecordData) : LocalParts :=
  let description := recordData.description
  let sig := localSignals description
  let p := localBranch recordData sig
  let p := applyAgePass description sig p
  let p := applyFamilyHistoryPass sig p
  let p := applySmokingPass description sig p
  let p := applyEmptyDescriptionOverwrite recordData p
  { p with
    keyFindings := backfillFindings p.keyFindings
    recommendations := backfillRecommendations p.recommendations }

/-- The confidence computed before the random jitter is added
(source lines 1019-1038, evaluated on the final lists). -/
def localPreJitterConfidence (recordData : RecordData) : ℚ :=
  let p := localAnalysisParts recordData
  localDynamicConfidence recordData.description
    (localSignals recordData.description) p.keyFindings p.recommendations

/-- `generateEnhancedLocalAnalysis` (source lines 717-1052); `rand` is the
value produced by `Math.random()` (in [0,1)). -/
def generateEnhancedLocalAnalysis (recordData : RecordData) (rand : ℚ) :
    AIAnalysisResult :=
  let p := localAnalysisParts recordData
  let dynamicConfidence := localPreJitterConfidence recordData
  let randomFactor := (rand - 0.5) * 0.1
  { summary := p.summary
    keyFindings := p.keyFindings
    riskWarnings := p.riskWarnings
    recommendations := p.recommendations
    confidence := qmin 0.95 (qmax 0.4 (dynamicConfidence + randomFactor))
    analysisType := "Advanced Health Analysis".data }

/-- The oracle environment of the orchestrator: the resolved API key
(environment variable or window-injected), the decoded provider reply
(`none` models any transport failure, malformed body or thrown exception in
`callGroqAPI`, including OCR failures absorbed inside it), and the
`Math.random()` value used by the local fallback. -/
structure GroqEnv where
  apiKey : Option (List Char)
  reply : Option ProviderReply
  rand : ℚ

/-- `analyzeHealthRecordWithAI` (source lines 12-70): key check, one provider
attempt, local fallback on any failure. -/
def analyzeHealthRecordWithAI (env : GroqEnv) (recordData : RecordData) :
    AIAnalysisResult :=
  match env.apiKey with
  | none => generateEnhancedLocalAnalysis recordData env.rand
  | some key =>
    if key = [] || key = "gsk_your_api_key_here".data then
      generateEnhancedLocalAnalysis recordData env.rand
    else
      match env.reply with
      | some reply => parseAIResponse reply recordData
      | none => generateEnhancedLocalAnalysis recordData env.rand

/-! ### Specification-side definitions and concrete inputs used below -/

/-- The specification's wording of the similarity test: normalize both
strings; both non-empty, and either exact match, or token-set Jaccard
similarity at least 0.6 (intersection over union of the word sets), or the
shorter normalized string has length at least 20 and is a substring of the
longer. -/
def similarSpec (a b : List Char) : Prop :=
  normalizeTextForCompare a ≠ [] ∧ normalizeTextForCompare b ≠ [] ∧
    (normalizeTextForCompare a = normalizeTextForCompare b ∨
     (3 : ℚ) / 5 ≤
       ((((splitOnChar ' ' (normalizeTextForCompare a)).toFinset ∩
           (splitOnChar ' ' (normalizeTextForCompare b)).toFinset).card : ℚ) /
         (((splitOnChar ' ' (normalizeTextForCompare a)).toFinset ∪
           (splitOnChar ' ' (normalizeTextForCompare b)).toFinset).card : ℚ)) ∨
     (20 ≤ min (normalizeTextForCompare a).length
         (normalizeTextForCompare b).length ∧
       (normalizeTextForCompare a <:+: normalizeTextForCompare b ∨
        normalizeTextForCompare b <:+: normalizeTextForCompare a)))

/-- A generic record descriptor (record type outside the special branches,
empty description). -/
def rdGeneric : RecordData :=
  { title := "Note".data, description := [],
    recordType := "Consultation".data, serviceDate := "2024-01-01".data,
    fileUrl := none, fileName := none }

/-- A summary string equal to the generic default warning entry. -/
def sC2 : List Char :=
  "Limited clinical details available for assessment".data

/-- A lab-results descriptor whose description fires four findings-producing
signals at once. -/
def rdC1 : RecordData :=
  { title := "Panel".data,
    description := "150/95 cholesterol diabetes normal".data,
    recordType := "Lab Results".data, serviceDate := "2024-01-01".data,
    fileUrl := none, fileName := none }

/-- A lab-results descriptor with a blood-pressure reading and a very short
description. -/
def rdC5 : RecordData :=
  { title := "BP Panel".data, description := "150/95".data,
    recordType := "Lab Results".data, serviceDate := "2024-01-01".data,
    fileUrl := none, fileName := none }

/-- A lab-results descriptor with a blood-pressure reading and a description
longer than 100 characters. -/
def rdC5w : RecordData :=
  { title := "BP Panel".data,
    description := "Blood pressure measured at 150/95 during three separate visits this month; patient advised to monitor at home and follow up.".data,
    recordType := "Lab Results".data, serviceDate := "2024-02-01".data,
    fileUrl := none, fileName := none }

/-- An imaging descriptor whose description fires no warning-producing
signal. -/
def rdC10 : RecordData :=
  { title := "Chest scan".data, description := "Routine chest scan".data,
    recordType := "Imaging".data, serviceDate := "2024-01-01".data,
    fileUrl := none, fileName := none }

/-- A decoded provider payload whose numeric confidence field is 2. -/
def payloadC4 : ParsedPayload :=
  { summary := some "A summary.".data,
    keyFindings := some ["f1".data], riskWarnings := some ["w1".data],
    recommendations := some ["r1".data], confidence := some 2,
    analysisType := some "X".data }

/-- 275 characters of two alternating words. -/
def padC6 : List Char :=
  (List.replicate 25 "alpha beta ".data).flatten

/-- A 285-character entry whose truncation to 277 characters drops the three
words that keep it dissimilar from "alpha beta". -/
def bigC6 : List Char :=
  padC6 ++ "  cc dd ee".data

/-- A candidate list on which the list normalizer is not idempotent. -/
def itemsC6 : List (List Char) :=
  ["alpha beta".data, bigC6]

/-- The environment in which no provider credential is configured and the
provider call fails. -/
def envFail : GroqEnv :=
  { apiKey := none, reply := none, rand := 0 }

/-! ### Basic facts about the string utilities -/

theorem dropWhile_dropWhile (p : Char → Bool) (l : List Char) :
    (l.dropWhile p).dropWhile p = l.dropWhile p := by
  induction l with
  | nil => rfl
  | cons a l ih => by_cases h : p a <;> simp [List.dropWhile_cons, h, ih]

theorem dropWhile_head_not (p : Char → Bool) (l : List Char) (a : Char)
    (h : (l.dropWhile p).head? = some a) : p a = false := by
  induction l with
  | nil => simp at h
  | cons b l ih =>
    by_cases hb : p b
    · rw [List.dropWhile_cons_of_pos hb] at h
      exact ih h
    · rw [List.dropWhile_cons_of_neg hb] at h
      simp at h
      rw [← h]
      simpa using hb

theorem dropWhile_eq_self_of_head (p : Char → Bool) (l : List Char)
    (h : ∀ a, l.head? = some a → p a = false) : l.dropWhile p = l := by
  cases l with
  | nil => rfl
  | cons b t => exact List.dropWhile_cons_of_neg (by simpa using h b rfl)

theorem dropWhile_length_le (p : Char → Bool) (l : List Char) :
    (l.dropWhile p).length ≤ l.length := by
  have h := congrArg List.length (List.takeWhile_append_dropWhile p l)
  simp only [List.length_append] at h
  omega

/-- Trimming is idempotent. -/
theorem jsTrim_idem (l : List Char) : jsTrim (jsTrim l) = jsTrim l := by
  unfold jsTrim
  set u := l.dropWhile isJsSpace with hu
  set v := u.reverse.dropWhile isJsSpace with hv
  have h1 : v.reverse.dropWhile isJsSpace = v.reverse := by
    apply dropWhile_eq_self_of_head
    intro a ha
    have hsplit : v.reverse ++ (u.reverse.takeWhile isJsSpace).reverse = u := by
      have h2 : u.reverse.takeWhile isJsSpace ++ v = u.reverse := by
        rw [hv]
        exact List.takeWhile_append_dropWhile _ _
      calc v.reverse ++ (u.reverse.takeWhile isJsSpace).reverse
          = (u.reverse.takeWhile isJsSpace ++ v).reverse := by
            rw [List.reverse_append]
        _ = u.reverse.reverse := by rw [h2]
        _ = u := List.reverse_reverse u
    have hu' : u.head? = some a := by
      rw [← hsplit]
      cases hvr : v.reverse with
      | nil => rw [hvr] at ha; simp at ha
      | cons x xs =>
        rw [hvr] at ha
        simp at ha
        simp [ha]
    rw [hu] at hu'
    exact dropWhile_head_not isJsSpace l a hu'
  rw [h1, List.reverse_reverse, hv, dropWhile_dropWhile]

theorem jsTrim_length_le (l : List Char) : (jsTrim l).length ≤ l.length := by
  unfold jsTrim
  calc (((l.dropWhile isJsSpace).reverse.dropWhile isJsSpace).reverse).length
      = ((l.dropWhile isJsSpace).reverse.dropWhile isJsSpace).length :=
        List.length_reverse _
    _ ≤ (l.dropWhile isJsSpace).reverse.length := dropWhile_length_le _ _
    _ = (l.dropWhile isJsSpace).length := List.length_reverse _
    _ ≤ l.length := dropWhile_length_le _ _

theorem conciseOf_length_le (raw : List Char) : (conciseOf raw).length ≤ 280 := by
  unfold conciseOf
  split_ifs with h
  · have h1 : (jsTrim ((jsTrim raw).take 277)).length ≤ 277 :=
      le_trans (jsTrim_length_le _) (by simp [List.length_take])
    have h2 : ("…".data).length = 1 := rfl
    rw [List.length_append, h2]
    omega
  · omega

theorem conciseOf_eq_of_le (raw : List Char)
    (h : (jsTrim raw).length ≤ 280) : conciseOf raw = jsTrim raw := by
  unfold conciseOf
  rw [if_neg (by omega)]

/-! ### The list normalizer: entry origin, invariants, fixed points -/

theorem foldl_dedupeStep_mem (s : List Char) (items : List (List Char)) :
    ∀ (acc : List (List Char)) (e : List Char),
      e ∈ items.foldl (dedupeStep s) acc →
      e ∈ acc ∨ ∃ raw ∈ items, e = conciseOf raw := by
  induction items with
  | nil =>
    intro acc e he
    exact Or.inl he
  | cons a items ih =>
    intro acc e he
    rw [List.foldl_cons] at he
    rcases ih (dedupeStep s acc a) e he with h | ⟨raw, hr, he'⟩
    · unfold dedupeStep at h
      split_ifs at h
      · exact Or.inl h
      · exact Or.inl h
      · exact Or.inl h
      · exact Or.inl h
      · rcases List.mem_append.1 h with h' | h'
        · exact Or.inl h'
        · exact Or.inr ⟨a, List.mem_cons_self a items, by simpa using h'⟩
    · exact Or.inr ⟨raw, List.mem_cons_of_mem a hr, he'⟩

/-- Every entry of a normalized list is the `concise` form of an input
entry. -/
theorem dedupeAndTrimList_mem (items : List (List Char)) (s : List Char)
    (e : List Char) (he : e ∈ dedupeAndTrimList items s) :
    ∃ raw ∈ items, e = conciseOf raw := by
  unfold dedupeAndTrimList at he
  rcases foldl_dedupeStep_mem s items [] e (List.take_subset _ _ he) with h | h
  · simp at h
  · exact h

theorem foldl_dedupeStep_clean (s : List Char) :
    ∀ (items acc : List (List Char)),
      (∀ raw ∈ items, (jsTrim raw).length ≤ 280) →
      acc.Pairwise (fun x y => areTextsSimilar x y = false) →
      (∀ e ∈ acc, areTextsSimilar e s = false ∧ e ≠ [] ∧ jsTrim e = e ∧
        e.length ≤ 280) →
      (items.foldl (dedupeStep s) acc).Pairwise
        (fun x y => areTextsSimilar x y = false) ∧
      ∀ e ∈ items.foldl (dedupeStep s) acc,
        areTextsSimilar e s = false ∧ e ≠ [] ∧ jsTrim e = e ∧
          e.length ≤ 280 := by
  intro items
  induction items with
  | nil =>
    intro acc _ h1 h2
    exact ⟨h1, h2⟩
  | cons a items ih =>
    intro acc H h1 h2
    rw [List.foldl_cons]
    have Htail : ∀ raw ∈ items, (jsTrim raw).length ≤ 280 :=
      fun raw hr => H raw (List.mem_cons_of_mem a hr)
    unfold dedupeStep
    split_ifs with g1 g2 g3 g4
    · exact ih acc Htail h1 h2
    · exact ih acc Htail h1 h2
    · exact ih acc Htail h1 h2
    · exact ih acc Htail h1 h2
    · have hca : conciseOf a = jsTrim a :=
        conciseOf_eq_of_le a (H a (List.mem_cons_self a items))
      apply ih (acc ++ [conciseOf a]) Htail
      · rw [List.pairwise_append]
        refine ⟨h1, by simp, ?_⟩
        intro x hx y hy
        have hy' : y = conciseOf a := by simpa using hy
        subst hy'
        rw [hca]
        simp only [List.any_eq_true, not_exists] at g4
        have := g4 x
        simp only [not_and] at this
        simpa using this hx
      · intro e hee
        rcases List.mem_append.1 hee with h' | h'
        · exact h2 e h'
        · have he' : e = conciseOf a := by simpa using h'
          subst he'
          rw [hca]
          refine ⟨by simpa using g3, g2, jsTrim_idem a,
            H a (List.mem_cons_self a items)⟩

/-- Under the no-truncation hypothesis, the normalized list is pairwise
dissimilar, dissimilar from the reference, and made of non-blank trimmed
entries of length at most 280. -/
theorem dedupeAndTrimList_clean (items : List (List Char)) (s : List Char)
    (H : ∀ raw ∈ items, (jsTrim raw).length ≤ 280) :
    (dedupeAndTrimList items s).Pairwise
      (fun x y => areTextsSimilar x y = false) ∧
    ∀ e ∈ dedupeAndTrimList items s,
      areTextsSimilar e s = false ∧ e ≠ [] ∧ jsTrim e = e ∧
        e.length ≤ 280 := by
  have h := foldl_dedupeStep_clean s items [] H (by simp) (by simp)
  unfold dedupeAndTrimList
  exact ⟨h.1.sublist (List.take_sublist _ _),
    fun e he => h.2 e (List.take_subset _ _ he)⟩

theorem foldl_dedupeStep_fixed (s : List Char) :
    ∀ (l acc : List (List Char)),
      (∀ a ∈ acc, ∀ b ∈ l, areTextsSimilar a b = false) →
      l.Pairwise (fun x y => areTextsSimilar x y = false) →
      (∀ e ∈ l, areTextsSimilar e s = false ∧ e ≠ [] ∧ jsTrim e = e ∧
        e.length ≤ 280) →
      l.foldl (dedupeStep s) acc = acc ++ l := by
  intro l
  induction l with
  | nil =>
    intro acc _ _ _
    simp
  | cons b l ih =>
    intro acc hc hp he
    rw [List.foldl_cons]
    have hb := he b (List.mem_cons_self b l)
    have ht : jsTrim b = b := hb.2.2.1
    have hstep : dedupeStep s acc b = acc ++ [b] := by
      unfold dedupeStep
      rw [if_neg hb.2.1, if_neg (by rw [ht]; exact hb.2.1),
        if_neg (by rw [ht, hb.1]; simp), if_neg ?_]
      · rw [conciseOf_eq_of_le b (by rw [ht]; exact hb.2.2.2), ht]
      · rw [ht]
        simp only [List.any_eq_true, not_exists, not_and]
        intro x hx hs
        rw [hc x hx b (List.mem_cons_self b l)] at hs
        exact Bool.false_ne_true hs
    rw [hstep]
    rw [ih (acc ++ [b]) ?_ (List.pairwise_cons.1 hp).2
      (fun e hel => he e (List.mem_cons_of_mem _ hel))]
    · simp
    · intro x hx c hcl
      rcases List.mem_append.1 hx with hxa | hxb
      · exact hc x hxa c (List.mem_cons_of_mem b hcl)
      · have hxb' : x = b := by simpa using hxb
        subst hxb'
        exact (List.pairwise_cons.1 hp).1 c hcl

/-- A list that already satisfies the normalizer invariants is a fixed point
of the normalizer. -/
theorem dedupeAndTrimList_of_clean (l : List (List Char)) (s : List Char)
    (hp : l.Pairwise (fun x y => areTextsSimilar x y = false))
    (he : ∀ e ∈ l, areTextsSimilar e s = false ∧ e ≠ [] ∧ jsTrim e = e ∧
      e.length ≤ 280)
    (hlen : l.length ≤ 5) : dedupeAndTrimList l s = l := by
  unfold dedupeAndTrimList
  rw [foldl_dedupeStep_fixed s l [] (by simp) hp he]
  simpa using List.take_of_length_le hlen

theorem dedupeAndTrimList_length_le (items : List (List Char))
    (s : List Char) : (dedupeAndTrimList items s).length ≤ 5 := by
  unfold dedupeAndTrimList
  simp [List.length_take]

/-! ### Symmetry of the similarity test -/

theorem splitOnChar_ne_nil (sep : Char) (cs : List Char) :
    splitOnChar sep cs ≠ [] := by
  induction cs with
  | nil => simp [splitOnChar]
  | cons c cs ih =>
    rw [splitOnChar]
    split_ifs
    · simp
    · cases h : splitOnChar sep cs <;> simp

theorem interCount_eq_card (na nb : List Char) :
    interCount na nb =
      ((splitOnChar ' ' na).toFinset ∩ (splitOnChar ' ' nb).toFinset).card := by
  unfold interCount tokensOf
  have hnd : ((splitOnChar ' ' na).dedup.filter
      (fun t => decide (t ∈ (splitOnChar ' ' nb).dedup))).Nodup :=
    (List.nodup_dedup _).filter _
  rw [← List.toFinset_card_of_nodup hnd, List.toFinset_filter]
  congr 1
  ext x
  simp [Finset.mem_filter, Finset.mem_inter, List.mem_toFinset, List.mem_dedup]

theorem interCount_comm (na nb : List Char) :
    interCount na nb = interCount nb na := by
  rw [interCount_eq_card, interCount_eq_card, Finset.inter_comm]

theorem tokensOf_length_eq (n : List Char) :
    (tokensOf n).length = (splitOnChar ' ' n).toFinset.card := by
  unfold tokensOf
  rw [List.card_toFinset]

theorem unionCount_eq_card (na nb : List Char) :
    unionCount na nb =
      ((splitOnChar ' ' na).toFinset ∪ (splitOnChar ' ' nb).toFinset).card := by
  unfold unionCount
  rw [tokensOf_length_eq, tokensOf_length_eq, interCount_eq_card]
  have h := Finset.card_union_add_card_inter (splitOnChar ' ' na).toFinset
    (splitOnChar ' ' nb).toFinset
  have hle : ((splitOnChar ' ' na).toFinset ∩ (splitOnChar ' ' nb).toFinset).card ≤
      (splitOnChar ' ' na).toFinset.card :=
    Finset.card_le_card (Finset.inter_subset_left)
  omega

theorem unionCount_comm (na nb : List Char) :
    unionCount na nb = unionCount nb na := by
  rw [unionCount_eq_card, unionCount_eq_card, Finset.union_comm]

theorem unionCount_pos (na nb : List Char) : 0 < unionCount na nb := by
  rw [unionCount_eq_card, Finset.card_pos]
  obtain ⟨t, ts, h⟩ := List.exists_cons_of_ne_nil (splitOnChar_ne_nil ' ' na)
  exact ⟨t, Finset.mem_union_left _ (by simp [h, List.mem_toFinset])⟩

theorem jaccardGE_comm (na nb : List Char) :
    jaccardGE na nb = jaccardGE nb na := by
  unfold jaccardGE
  rw [unionCount_comm, interCount_comm]

theorem containmentCheck_comm (na nb : List Char) (h : na ≠ nb) :
    containmentCheck na nb = containmentCheck nb na := by
  unfold containmentCheck
  rcases lt_trichotomy na.length nb.length with hlt | heq | hgt
  · rw [if_pos hlt, if_pos hlt, if_neg (by omega), if_neg (by omega)]
  · rw [if_neg (by omega), if_neg (by omega), if_neg (by omega),
      if_neg (by omega)]
    have h1 : containsSub na nb = false := by
      unfold containsSub
      simp only [decide_eq_false_iff_not]
      intro hin
      exact h (hin.eq_of_length heq.symm).symm
    have h2 : containsSub nb na = false := by
      unfold containsSub
      simp only [decide_eq_false_iff_not]
      intro hin
      exact h (hin.eq_of_length heq)
    rw [h1, h2, Bool.and_false, Bool.and_false]
  · rw [if_neg (by omega), if_neg (by omega), if_pos hgt, if_pos hgt]

theorem jaccardGE_iff (na nb : List Char) :
    jaccardGE na nb = true ↔
      (3 : ℚ) / 5 ≤
        ((((splitOnChar ' ' na).toFinset ∩ (splitOnChar ' ' nb).toFinset).card : ℚ) /
          (((splitOnChar ' ' na).toFinset ∪ (splitOnChar ' ' nb).toFinset).card : ℚ)) := by
  unfold jaccardGE
  rw [if_neg (unionCount_pos na nb).ne']
  set U := ((splitOnChar ' ' na).toFinset ∪ (splitOnChar ' ' nb).toFinset).card with hU
  set I := ((splitOnChar ' ' na).toFinset ∩ (splitOnChar ' ' nb).toFinset).card with hI
  have hU0 : 0 < U := by
    rw [hU, ← unionCount_eq_card]
    exact unionCount_pos na nb
  have hUq : (0 : ℚ) < (U : ℚ) := by exact_mod_cast hU0
  rw [decide_eq_true_iff, unionCount_eq_card, interCount_eq_card, ← hU, ← hI,
    div_le_div_iff₀ (by norm_num) hUq]
  constructor
  · intro h
    have h' : ((3 * U : ℕ) : ℚ) ≤ ((5 * I : ℕ) : ℚ) := Nat.cast_le.2 h
    push_cast at h'
    linarith
  · intro h
    have h' : ((3 * U : ℕ) : ℚ) ≤ ((5 * I : ℕ) : ℚ) := by push_cast; linarith
    exact Nat.cast_le.1 h'

theorem containmentCheck_iff (na nb : List Char) (h : na ≠ nb) :
    containmentCheck na nb = true ↔
      20 ≤ min na.length nb.length ∧ (na <:+: nb ∨ nb <:+: na) := by
  unfold containmentCheck containsSub
  rcases lt_trichotomy na.length nb.length with hlt | heq | hgt
  · have hmin : min na.length nb.length = na.length := min_eq_left hlt.le
    rw [if_pos hlt, if_pos hlt]
    simp only [Bool.and_eq_true, decide_eq_true_iff]
    constructor
    · rintro ⟨h20, hin⟩
      exact ⟨by rw [hmin]; exact h20, Or.inl hin⟩
    · rintro ⟨h20, hin | hin⟩
      · exact ⟨by rw [hmin] at h20; exact h20, hin⟩
      · have := hin.sublist.length_le
        omega
  · rw [if_neg (by omega), if_neg (by omega)]
    simp only [Bool.and_eq_true, decide_eq_true_iff]
    constructor
    · rintro ⟨h20, hin⟩
      exact absurd (hin.eq_of_length heq.symm) (Ne.symm h)
    · rintro ⟨h20, hin | hin⟩
      · exact absurd (hin.eq_of_length heq) h
      · exact absurd (hin.eq_of_length heq.symm) (Ne.symm h)
  · have hmin : min na.length nb.length = nb.length := min_eq_right hgt.le
    rw [if_neg (by omega), if_neg (by omega)]
    simp only [Bool.and_eq_true, decide_eq_true_iff]
    constructor
    · rintro ⟨h20, hin⟩
      exact ⟨by rw [hmin]; exact h20, Or.inr hin⟩
    · rintro ⟨h20, hin | hin⟩
      · have := hin.sublist.length_le
        omega
      · exact ⟨by rw [hmin] at h20; exact h20, hin⟩

theorem similarSpec_symm (a b : List Char) :
    similarSpec a b ↔ similarSpec b a := by
  unfold similarSpec
  constructor
  · rintro ⟨h1, h2, h3⟩
    refine ⟨h2, h1, ?_⟩
    rcases h3 with h | h | ⟨hm, hi⟩
    · exact Or.inl h.symm
    · exact Or.inr (Or.inl (by rwa [Finset.inter_comm, Finset.union_comm]))
    · exact Or.inr (Or.inr ⟨by rwa [min_comm], hi.symm⟩)
  · rintro ⟨h1, h2, h3⟩
    refine ⟨h2, h1, ?_⟩
    rcases h3 with h | h | ⟨hm, hi⟩
    · exact Or.inl h.symm
    · exact Or.inr (Or.inl (by rwa [Finset.inter_comm, Finset.union_comm]))
    · exact Or.inr (Or.inr ⟨by rwa [min_comm], hi.symm⟩)

theorem areTextsSimilar_iff_spec (a b : List Char) :
    areTextsSimilar a b = true ↔ similarSpec a b := by
  unfold areTextsSimilar similarSpec
  by_cases h1 : ((normalizeTextForCompare a).isEmpty ||
      (normalizeTextForCompare b).isEmpty) = true
  · rw [if_pos h1]
    simp only [Bool.or_eq_true, List.isEmpty_iff] at h1
    constructor
    · intro h
      exact absurd h (by simp)
    · rintro ⟨hna, hnb, _⟩
      rcases h1 with h | h
      · exact absurd h hna
      · exact absurd h hnb
  · rw [if_neg h1]
    simp only [Bool.or_eq_true, List.isEmpty_iff, not_or] at h1
    obtain ⟨hna, hnb⟩ := h1
    by_cases h2 : normalizeTextForCompare a = normalizeTextForCompare b
    · rw [if_pos h2]
      simp [hna, hnb, h2]
    · rw [if_neg h2]
      by_cases h3 : jaccardGE (normalizeTextForCompare a)
          (normalizeTextForCompare b) = true
      · rw [if_pos h3]
        simp only [true_iff]
        exact ⟨hna, hnb, Or.inr (Or.inl ((jaccardGE_iff _ _).1 h3))⟩
      · rw [if_neg h3]
        rw [containmentCheck_iff _ _ h2]
        constructor
        · intro h
          exact ⟨hna, hnb, Or.inr (Or.inr h)⟩
        · rintro ⟨_, _, h | h | h⟩
          · exact absurd h h2
          · exact absurd ((jaccardGE_iff _ _).2 h) h3
          · exact h

theorem areTextsSimilar_symm (a b : List Char) :
    areTextsSimilar a b = areTextsSimilar b a := by
  rw [Bool.eq_iff_iff, areTextsSimilar_iff_spec, areTextsSimilar_iff_spec]
  exact similarSpec_symm a b

/-! ### Shape of the local generator's post-passes -/

theorem applyAgePass_kf (d : List Char) (sig : LocalSignals) (p : LocalParts) :
    (applyAgePass d sig p).keyFindings = p.keyFindings := by
  unfold applyAgePass
  split_ifs
  · cases firstAgeDigits d <;> rfl
  · rfl

theorem applyAgePass_recs_le (d : List Char) (sig : LocalSignals)
    (p : LocalParts) :
    p.recommendations.length ≤ (applyAgePass d sig p).recommendations.length := by
  unfold applyAgePass
  split_ifs
  · cases firstAgeDigits d <;> simp
  · exact le_refl _

theorem applyFamilyHistoryPass_kf (sig : LocalSignals) (p : LocalParts) :
    ∃ t, (applyFamilyHistoryPass sig p).keyFindings = p.keyFindings ++ t := by
  unfold applyFamilyHistoryPass
  split_ifs
  · exact ⟨_, rfl⟩
  · exact ⟨[], by simp⟩

theorem applyFamilyHistoryPass_recs_le (sig : LocalSignals) (p : LocalParts) :
    p.recommendations.length ≤
      (applyFamilyHistoryPass sig p).recommendations.length := by
  unfold applyFamilyHistoryPass
  split_ifs <;> simp

theorem applySmokingPass_kf (d : List Char) (sig : LocalSignals)
    (p : LocalParts) :
    ∃ t, (applySmokingPass d sig p).keyFindings = p.keyFindings ++ t := by
  unfold applySmokingPass
  split_ifs
  · exact ⟨_, rfl⟩
  · exact ⟨[], by simp⟩
  · exact ⟨[], by simp⟩

theorem applySmokingPass_recs_le (d : List Char) (sig : LocalSignals)
    (p : LocalParts) :
    p.recommendations.length ≤
      (applySmokingPass d sig p).recommendations.length := by
  unfold applySmokingPass
  split_ifs <;> simp

theorem applyEmptyDescriptionOverwrite_of_ne (rd : RecordData)
    (p : LocalParts) (h : rd.description ≠ []) :
    applyEmptyDescriptionOverwrite rd p = p := by
  unfold applyEmptyDescriptionOverwrite
  rw [if_neg (by simpa using h)]

theorem backfillFindings_ne_nil (kf : List (List Char)) :
    backfillFindings kf ≠ [] := by
  unfold backfillFindings
  split_ifs with h
  · simp
  · intro hc
    exact h (by rw [hc]; rfl)

theorem backfillRecommendations_ne_nil (recs : List (List Char)) :
    backfillRecommendations recs ≠ [] := by
  unfold backfillRecommendations
  split_ifs with h
  · simp
  · intro hc
    exact h (by rw [hc]; rfl)

theorem backfillFindings_of_ne (kf : List (List Char)) (h : kf ≠ []) :
    backfillFindings kf = kf := by
  unfold backfillFindings
  rw [if_neg (by simpa using h)]

theorem backfillRecommendations_of_le (recs : List (List Char))
    (h : 0 < recs.length) : backfillRecommendations recs = recs := by
  unfold backfillRecommendations
  rw [if_neg (by omega)]

/-! ### The lab-results blood-pressure scenario -/

theorem hasHighBP_of_contains (d : List Char)
    (h : containsSub d "150/95".data = true) :
    (localSignals d).hasHighBP = true := by
  have h' : containsCI d "150/95".data = true := by
    unfold containsCI
    unfold containsSub at h ⊢
    unfold jsToLower
    rw [decide_eq_true_iff] at h ⊢
    exact h.map Char.toLower
  simp [localSignals, h']

theorem localBranch_lab (rd : RecordData)
    (hbp : (localSignals rd.description).hasHighBP = true)
    (hty : rd.recordType = "Lab Results".data) :
    (∃ t, (localBranch rd (localSignals rd.description)).keyFindings =
      "CRITICAL: Elevated blood pressure (150/95 mmHg) - Stage 2 Hypertension".data :: t) ∧
    4 ≤ (localBranch rd (localSignals rd.description)).recommendations.length := by
  simp only [localBranch]
  rw [if_pos hty]
  constructor
  · simp only [hbp, if_true]
    exact ⟨_, rfl⟩
  · simp only [hbp, if_true]
    simp [List.length_append]

theorem localAnalysisParts_of_ne (rd : RecordData) (h : rd.description ≠ []) :
    localAnalysisParts rd =
      { localPassChain rd with
        keyFindings := backfillFindings (localPassChain rd).keyFindings
        recommendations :=
          backfillRecommendations (localPassChain rd).recommendations } := by
  simp only [localAnalysisParts, localPassChain]
  rw [applyEmptyDescriptionOverwrite_of_ne _ _ h]

theorem localPassChain_kf (rd : RecordData) :
    ∃ t, (localPassChain rd).keyFindings =
      (localBranch rd (localSignals rd.description)).keyFindings ++ t := by
  unfold localPassChain
  obtain ⟨t2, h2⟩ := applyFamilyHistoryPass_kf (localSignals rd.description)
    (applyAgePass rd.description (localSignals rd.description)
      (localBranch rd (localSignals rd.description)))
  obtain ⟨t3, h3⟩ := applySmokingPass_kf rd.description
    (localSignals rd.description)
    (applyFamilyHistoryPass (localSignals rd.description)
      (applyAgePass rd.description (localSignals rd.description)
        (localBranch rd (localSignals rd.description))))
  refine ⟨t2 ++ t3, ?_⟩
  rw [h3, h2, applyAgePass_kf, List.append_assoc]

theorem localPassChain_recs_le (rd : RecordData) :
    (localBranch rd (localSignals rd.description)).recommendations.length ≤
      (localPassChain rd).recommendations.length := by
  unfold localPassChain
  calc (localBranch rd (localSignals rd.description)).recommendations.length
      ≤ _ := applyAgePass_recs_le _ _ _
    _ ≤ _ := applyFamilyHistoryPass_recs_le _ _
    _ ≤ _ := applySmokingPass_recs_le _ _ _

theorem dynamicConfidence_ge (desc : List Char) (sig : LocalSignals)
    (kf recs : List (List Char))
    (hbp : sig.hasHighBP = true) (hlen : 100 < desc.length)
    (hrecs : 2 < recs.length) :
    (9 : ℚ) / 10 ≤ localDynamicConfidence desc sig kf recs := by
  unfold localDynamicConfidence
  rw [if_pos hlen, if_pos hrecs,
    if_pos (show (sig.hasHighBP || sig.hasCholesterol || sig.hasChestPain) = true
      by simp [hbp]),
    if_neg (show ¬ desc.length < 50 by omega),
    if_neg (show ¬ (!sig.hasHighBP && !sig.hasCholesterol && !sig.hasChestPain &&
        !sig.hasDiabetes) = true by simp [hbp])]
  split_ifs <;> norm_num [qmin, qmax]

/-! ### The diversifier and its backfill -/

theorem defaultsByRecordType_lengths (rd : RecordData) :
    (defaultsByRecordType rd).findings.length ≤ 5 ∧
    (defaultsByRecordType rd).warnings.length ≤ 5 ∧
    (defaultsByRecordType rd).recs.length ≤ 5 := by
  simp only [defaultsByRecordType]
  split_ifs <;> exact ⟨by simp, by simp, by simp⟩

theorem ensureDiverseSections_len (s : List Char) (f w r : List (List Char))
    (rd : RecordData) :
    (ensureDiverseSections s f w r rd).findings.length ≤ 5 ∧
    (ensureDiverseSections s f w r rd).warnings.length ≤ 5 ∧
    (ensureDiverseSections s f w r rd).recs.length ≤ 5 := by
  obtain ⟨d1, d2, d3⟩ := defaultsByRecordType_lengths rd
  simp only [ensureDiverseSections]
  refine ⟨?_, ?_, ?_⟩ <;>
    (split_ifs <;> first | assumption | exact dedupeAndTrimList_length_le _ _)

theorem ensureDiverseSections_summary (s : List Char)
    (f w r : List (List Char)) (rd : RecordData) :
    (ensureDiverseSections s f w r rd).summary = jsTrim s := rfl

theorem ensureDiverseSections_findings_of_ne (s : List Char)
    (f w r : List (List Char)) (rd : RecordData)
    (h : dedupeAndTrimList f (jsTrim s) ≠ []) :
    (ensureDiverseSections s f w r rd).findings =
      dedupeAndTrimList f (jsTrim s) := by
  simp only [ensureDiverseSections]
  rw [if_neg (by simpa using h)]

theorem ensureDiverseSections_warnings_of_ne (s : List Char)
    (f w r : List (List Char)) (rd : RecordData)
    (h : dedupeAndTrimList w (jsTrim s) ≠ []) :
    (ensureDiverseSections s f w r rd).warnings =
      dedupeAndTrimList w (jsTrim s) := by
  simp only [ensureDiverseSections]
  rw [if_neg (by simpa using h)]

theorem ensureDiverseSections_recs_of_ne (s : List Char)
    (f w r : List (List Char)) (rd : RecordData)
    (h : dedupeAndTrimList r (jsTrim s) ≠ []) :
    (ensureDiverseSections s f w r rd).recs =
      dedupeAndTrimList r (jsTrim s) := by
  simp only [ensureDiverseSections]
  rw [if_neg (by simpa using h)]

theorem dedupe_clean_bidir (items : List (List Char)) (s : List Char)
    (H : ∀ raw ∈ items, (jsTrim raw).length ≤ 280) :
    (dedupeAndTrimList items s).Pairwise
      (fun x y => areTextsSimilar x y = false ∧ areTextsSimilar y x = false) ∧
    ∀ e ∈ dedupeAndTrimList items s,
      areTextsSimilar e s = false ∧ areTextsSimilar s e = false := by
  obtain ⟨hp, he⟩ := dedupeAndTrimList_clean items s H
  constructor
  · exact hp.imp (fun h => ⟨h, by rw [areTextsSimilar_symm]; exact h⟩)
  · intro e hee
    refine ⟨(he e hee).1, ?_⟩
    rw [areTextsSimilar_symm]
    exact (he e hee).1

/-! ### Keyword list extraction -/

theorem findKeywordSection_eq_none (keywords : List (List Char)) :
    ∀ lines : List (List Char),
      (∀ line ∈ lines, lineHasKeyword line keywords = false) →
      findKeywordSection keywords lines = none := by
  intro lines
  induction lines with
  | nil => intro _; rfl
  | cons l rest ih =>
    intro h
    unfold findKeywordSection
    rw [if_neg (by simp [h l (List.mem_cons_self l rest)])]
    exact ih (fun x hx => h x (List.mem_cons_of_mem l hx))

/-! ### Projections of the local generator -/

theorem gen_kf_eq (rd : RecordData) (rand : ℚ) :
    (generateEnhancedLocalAnalysis rd rand).keyFindings =
      backfillFindings
        ((applyEmptyDescriptionOverwrite rd (localPassChain rd)).keyFindings) :=
  rfl

theorem gen_recs_eq (rd : RecordData) (rand : ℚ) :
    (generateEnhancedLocalAnalysis rd rand).recommendations =
      backfillRecommendations
        ((applyEmptyDescriptionOverwrite rd (localPassChain rd)).recommendations) :=
  rfl

theorem gen_kf_parts (rd : RecordData) (rand : ℚ) :
    (generateEnhancedLocalAnalysis rd rand).keyFindings =
      (localAnalysisParts rd).keyFindings :=
  rfl

/-! ### Claims -/

set_option maxRecDepth 8000 in
/-- Claim C1, counterexample: the Local Heuristic Generator caps none of its
lists; on a lab-results descriptor firing four signals its `keyFindings` has
six entries, so a produced `AnalysisResult` can have a list longer than 5. -/
theorem localAnalysis_exceeds_five_findings :
    5 < (generateEnhancedLocalAnalysis rdC1 (1/2)).keyFindings.length := by
  decide

/-- Claim C1, amended: every list produced by the List Normalizer
(`dedupeAndTrimList`) has length at most 5, and every entry has length at
most 280 characters and is either an input entry (trimmed, when at most 280
characters long) or an input entry truncated to 277 characters with an
ellipsis appended; every list produced by the Section Diversifier
(`ensureDiverseSections`), backfills included, has length at most 5.  The
Local Heuristic Generator enforces neither bound. -/
theorem normalizer_bounded_lists :
    (∀ (items : List (List Char)) (s : List Char),
      (dedupeAndTrimList items s).length ≤ 5 ∧
      ∀ e ∈ dedupeAndTrimList items s,
        e.length ≤ 280 ∧
        ∃ raw ∈ items,
          ((jsTrim raw).length ≤ 280 ∧ e = jsTrim raw) ∨
          (280 < (jsTrim raw).length ∧
            e = jsTrim ((jsTrim raw).take 277) ++ "…".data)) ∧
    ∀ (s : List Char) (f w r : List (List Char)) (rd : RecordData),
      (ensureDiverseSections s f w r rd).findings.length ≤ 5 ∧
      (ensureDiverseSections s f w r rd).warnings.length ≤ 5 ∧
      (ensureDiverseSections s f w r rd).recs.length ≤ 5 := by
  constructor
  · intro items s
    refine ⟨dedupeAndTrimList_length_le items s, ?_⟩
    intro e he
    obtain ⟨raw, hr, hE⟩ := dedupeAndTrimList_mem items s e he
    subst hE
    refine ⟨conciseOf_length_le raw, raw, hr, ?_⟩
    by_cases h : 280 < (jsTrim raw).length
    · exact Or.inr ⟨h, by unfold conciseOf; rw [if_pos h]⟩
    · exact Or.inl ⟨by omega, by unfold conciseOf; rw [if_neg h]⟩
  · exact fun s f w r rd => ensureDiverseSections_len s f w r rd

/-- Witness for the amended claim C1 at a concrete input. -/
theorem normalizer_bounded_lists_witness :
    "hello".data ∈ dedupeAndTrimList ["hello".data] [] ∧
    ("hello".data.length ≤ 280 ∧
      ∃ raw ∈ (["hello".data] : List (List Char)),
        ((jsTrim raw).length ≤ 280 ∧ "hello".data = jsTrim raw) ∨
        (280 < (jsTrim raw).length ∧
          "hello".data = jsTrim ((jsTrim raw).take 277) ++ "…".data)) :=
  ⟨by decide,
   (normalizer_bounded_lists.1 ["hello".data] []).2 "hello".data (by decide)⟩

set_option maxRecDepth 8000 in
/-- Claim C2, counterexample: when a section comes back empty the diversifier
backfills it wholesale from the Record-Type Defaults Provider without any
similarity check, so a backfilled warning can be identical to the summary. -/
theorem backfilled_warning_duplicates_summary :
    (ensureDiverseSections sC2 ["x".data] [] ["y".data] rdGeneric).warnings =
      ["Limited clinical details available for assessment".data] ∧
    areTextsSimilar "Limited clinical details available for assessment".data
      (ensureDiverseSections sC2 ["x".data] [] ["y".data] rdGeneric).summary
      = true := by
  constructor <;> decide

/-- Claim C2, amended: for a section that is not backfilled (its normalized
list is non-empty) and whose entries need no truncation, the diversifier's
output contains no two entries similar to each other (in either order) and no
entry similar to the summary.  Backfilled sections bypass the similarity
checks. -/
theorem diversified_sections_no_dup :
    ∀ (s : List Char) (f w r : List (List Char)) (rd : RecordData),
      (∀ raw ∈ f ++ w ++ r, (jsTrim raw).length ≤ 280) →
      (dedupeAndTrimList f (jsTrim s) ≠ [] →
        (ensureDiverseSections s f w r rd).findings.Pairwise
          (fun x y => areTextsSimilar x y = false ∧
            areTextsSimilar y x = false) ∧
        ∀ e ∈ (ensureDiverseSections s f w r rd).findings,
          areTextsSimilar e (ensureDiverseSections s f w r rd).summary = false ∧
          areTextsSimilar (ensureDiverseSections s f w r rd).summary e = false) ∧
      (dedupeAndTrimList w (jsTrim s) ≠ [] →
        (ensureDiverseSections s f w r rd).warnings.Pairwise
          (fun x y => areTextsSimilar x y = false ∧
            areTextsSimilar y x = false) ∧
        ∀ e ∈ (ensureDiverseSections s f w r rd).warnings,
          areTextsSimilar e (ensureDiverseSections s f w r rd).summary = false ∧
          areTextsSimilar (ensureDiverseSections s f w r rd).summary e = false) ∧
      (dedupeAndTrimList r (jsTrim s) ≠ [] →
        (ensureDiverseSections s f w r rd).recs.Pairwise
          (fun x y => areTextsSimilar x y = false ∧
            areTextsSimilar y x = false) ∧
        ∀ e ∈ (ensureDiverseSections s f w r rd).recs,
          areTextsSimilar e (ensureDiverseSections s f w r rd).summary = false ∧
          areTextsSimilar (ensureDiverseSections s f w r rd).summary e = false) := by
  intro s f w r rd H
  have Hf : ∀ raw ∈ f, (jsTrim raw).length ≤ 280 :=
    fun raw hr => H raw (by simp [hr])
  have Hw : ∀ raw ∈ w, (jsTrim raw).length ≤ 280 :=
    fun raw hr => H raw (by simp [hr])
  have Hr : ∀ raw ∈ r, (jsTrim raw).length ≤ 280 :=
    fun raw hr => H raw (by simp [hr])
  refine ⟨?_, ?_, ?_⟩
  · intro hne
    rw [ensureDiverseSections_findings_of_ne s f w r rd hne,
      ensureDiverseSections_summary]
    exact dedupe_clean_bidir f (jsTrim s) Hf
  · intro hne
    rw [ensureDiverseSections_warnings_of_ne s f w r rd hne,
      ensureDiverseSections_summary]
    exact dedupe_clean_bidir w (jsTrim s) Hw
  · intro hne
    rw [ensureDiverseSections_recs_of_ne s f w r rd hne,
      ensureDiverseSections_summary]
    exact dedupe_clean_bidir r (jsTrim s) Hr

set_option maxRecDepth 8000 in
/-- Witness for the amended claim C2 at a concrete input. -/
theorem diversified_sections_no_dup_witness :
    (∀ raw ∈ ((["alpha one".data] ++ ["beta two".data] ++
        ["gamma three".data]) : List (List Char)),
      (jsTrim raw).length ≤ 280) ∧
    dedupeAndTrimList ["alpha one".data] (jsTrim "Some summary".data) ≠ [] ∧
    ((ensureDiverseSections "Some summary".data ["alpha one".data]
        ["beta two".data] ["gamma three".data] rdGeneric).findings.Pairwise
      (fun x y => areTextsSimilar x y = false ∧ areTextsSimilar y x = false) ∧
     ∀ e ∈ (ensureDiverseSections "Some summary".data ["alpha one".data]
        ["beta two".data] ["gamma three".data] rdGeneric).findings,
       areTextsSimilar e (ensureDiverseSections "Some summary".data
         ["alpha one".data] ["beta two".data] ["gamma three".data]
         rdGeneric).summary = false ∧
       areTextsSimilar (ensureDiverseSections "Some summary".data
         ["alpha one".data] ["beta two".data] ["gamma three".data]
         rdGeneric).summary e = false) :=
  ⟨by decide, by decide,
    (diversified_sections_no_dup "Some summary".data ["alpha one".data]
      ["beta two".data] ["gamma three".data] rdGeneric (by decide)).1
      (by decide)⟩

/-- Claim C3: the public operation is total.  Modelled with its network and
decoding outcomes as an explicit environment, `analyzeHealthRecordWithAI` is
a total function: in every environment it returns either the parsed provider
reply or the Local Heuristic Generator's result, and whenever the provider
produces nothing (missing or placeholder credentials behave the same way) it
returns exactly the local result. -/
theorem analyzeHealthRecordWithAI_total :
    ∀ (env : GroqEnv) (rd : RecordData),
      (env.reply = none →
        analyzeHealthRecordWithAI env rd =
          generateEnhancedLocalAnalysis rd env.rand) ∧
      (analyzeHealthRecordWithAI env rd =
          generateEnhancedLocalAnalysis rd env.rand ∨
        ∃ reply, env.reply = some reply ∧
          analyzeHealthRecordWithAI env rd = parseAIResponse reply rd) := by
  intro env rd
  obtain ⟨apiKey, reply, rand⟩ := env
  cases apiKey with
  | none => exact ⟨fun _ => rfl, Or.inl rfl⟩
  | some key =>
    simp only [analyzeHealthRecordWithAI]
    split_ifs with hk
    · exact ⟨fun _ => rfl, Or.inl rfl⟩
    · cases reply with
      | none => exact ⟨fun _ => rfl, Or.inl rfl⟩
      | some r =>
        refine ⟨fun hc => ?_, Or.inr ⟨r, rfl, rfl⟩⟩
        exact absurd hc (by simp)

/-- Witness for claim C3: with no credential and a failing provider, the
orchestrator returns the local analysis. -/
theorem analyzeHealthRecordWithAI_total_witness :
    envFail.reply = none ∧
    analyzeHealthRecordWithAI envFail rdGeneric =
      generateEnhancedLocalAnalysis rdGeneric envFail.rand :=
  ⟨rfl, (analyzeHealthRecordWithAI_total envFail rdGeneric).1 rfl⟩

/-- Claim C4, counterexample: the structured strategy does not clamp a
numeric provider confidence; a payload with confidence 2 yields a result
whose confidence is 2, outside [0,1]. -/
theorem provider_confidence_not_clamped :
    payloadC4.confidence = some 2 ∧
    1 < (parseAIResponse (ProviderReply.structured payloadC4)
      rdGeneric).confidence := by
  refine ⟨rfl, ?_⟩
  have h : (parseAIResponse (ProviderReply.structured payloadC4)
      rdGeneric).confidence = 2 := rfl
  rw [h]
  norm_num

/-- Claim C4, amended: the structured strategy passes a numeric provider
confidence through unchanged (no clamping), and defaults to 0.85 when the
field is absent or non-numeric. -/
theorem structured_confidence_passthrough :
    ∀ (p : ParsedPayload) (rd : RecordData),
      (parseAIResponse (ProviderReply.structured p) rd).confidence =
        p.confidence.getD 0.85 :=
  fun _ _ => rfl

set_option maxRecDepth 8000 in
/-- Claim C5, counterexample: with record type "Lab Results" and description
"150/95", the pre-jitter confidence is recomputed from scratch by the
dynamic-confidence pass and ends at 0.65, below 0.9 (the short description
costs 0.2 and the branch confidence of 0.95 is discarded). -/
theorem short_bp_description_low_confidence :
    containsSub rdC5.description "150/95".data = true ∧
    rdC5.recordType = "Lab Results".data ∧
    localPreJitterConfidence rdC5 < 9/10 := by
  refine ⟨by decide, rfl, ?_⟩
  simp only [localPreJitterConfidence, localDynamicConfidence]
  rw [show (localAnalysisParts rdC5).keyFindings.length = 2 from by decide,
    show (localAnalysisParts rdC5).recommendations.length = 4 from by decide,
    show localSignals rdC5.description =
      ⟨true, false, false, false, false, false, false, false, false, false,
        false, false, false⟩ from by decide,
    show rdC5.description.length = 6 from by decide]
  norm_num [qmin, qmax]

/-- Claim C5, amended: for every descriptor of record type "Lab Results"
whose description contains "150/95" and is longer than 100 characters, the
local generator's result contains a key finding mentioning "Stage 2
Hypertension" and the confidence computed before the random jitter is at
least 0.9. -/
theorem labResults_bp_scenario :
    ∀ (rd : RecordData) (rand : ℚ),
      containsSub rd.description "150/95".data = true →
      rd.recordType = "Lab Results".data →
      100 < rd.description.length →
      (∃ e ∈ (generateEnhancedLocalAnalysis rd rand).keyFindings,
        containsSub e "Stage 2 Hypertension".data = true) ∧
      (9 : ℚ) / 10 ≤ localPreJitterConfidence rd := by
  intro rd rand h1 h2 h3
  have hbp := hasHighBP_of_contains rd.description h1
  have hne : rd.description ≠ [] := by
    intro h
    rw [h] at h3
    simp at h3
  obtain ⟨⟨t0, hkf0⟩, hrec0⟩ := localBranch_lab rd hbp h2
  obtain ⟨t1, hkf1⟩ := localPassChain_kf rd
  have hrec1 := localPassChain_recs_le rd
  have hkfP : (localAnalysisParts rd).keyFindings =
      "CRITICAL: Elevated blood pressure (150/95 mmHg) - Stage 2 Hypertension".data ::
        (t0 ++ t1) := by
    rw [localAnalysisParts_of_ne rd hne]
    show backfillFindings (localPassChain rd).keyFindings = _
    rw [hkf1, hkf0]
    rw [backfillFindings_of_ne _ (by simp)]
    simp
  have hrecP : 2 < (localAnalysisParts rd).recommendations.length := by
    rw [localAnalysisParts_of_ne rd hne]
    show 2 < (backfillRecommendations (localPassChain rd).recommendations).length
    rw [backfillRecommendations_of_le _ (by omega)]
    omega
  constructor
  · refine ⟨"CRITICAL: Elevated blood pressure (150/95 mmHg) - Stage 2 Hypertension".data,
      ?_, by decide⟩
    rw [gen_kf_parts, hkfP]
    exact List.mem_cons_self _ _
  · unfold localPreJitterConfidence
    exact dynamicConfidence_ge rd.description (localSignals rd.description)
      (localAnalysisParts rd).keyFindings
      (localAnalysisParts rd).recommendations hbp h3 hrecP

set_option maxRecDepth 8000 in
/-- Witness for the amended claim C5 at a concrete descriptor. -/
theorem labResults_bp_scenario_witness :
    (containsSub rdC5w.description "150/95".data = true ∧
      rdC5w.recordType = "Lab Results".data ∧
      100 < rdC5w.description.length) ∧
    ((∃ e ∈ (generateEnhancedLocalAnalysis rdC5w 0).keyFindings,
      containsSub e "Stage 2 Hypertension".data = true) ∧
    (9 : ℚ) / 10 ≤ localPreJitterConfidence rdC5w) :=
  ⟨⟨by decide, rfl, by decide⟩,
    labResults_bp_scenario rdC5w 0 (by decide) rfl (by decide)⟩

set_option maxRecDepth 8000 in
/-- Claim C6, counterexample: the normalizer checks similarity against the
pre-truncation entry but stores the truncated one, so a second pass can
remove an entry the first pass kept: on `itemsC6` the first pass keeps two
entries and the second pass drops the truncated one. -/
theorem dedupeAndTrimList_not_idempotent :
    dedupeAndTrimList (dedupeAndTrimList itemsC6 []) [] ≠
      dedupeAndTrimList itemsC6 [] := by
  decide

/-- Claim C6, amended: the List Normalizer is idempotent on every list whose
trimmed entries are at most 280 characters long (no truncation occurs);
with longer entries a second pass can remove entries. -/
theorem dedupeAndTrimList_idem_no_truncation :
    ∀ (items : List (List Char)) (s : List Char),
      (∀ raw ∈ items, (jsTrim raw).length ≤ 280) →
      dedupeAndTrimList (dedupeAndTrimList items s) s =
        dedupeAndTrimList items s := by
  intro items s H
  obtain ⟨hp, he⟩ := dedupeAndTrimList_clean items s H
  exact dedupeAndTrimList_of_clean _ s hp he
    (dedupeAndTrimList_length_le items s)

/-- Witness for the amended claim C6 at a concrete input. -/
theorem dedupeAndTrimList_idem_no_truncation_witness :
    (∀ raw ∈ (["a b".data, "c d".data] : List (List Char)),
      (jsTrim raw).length ≤ 280) ∧
    dedupeAndTrimList (dedupeAndTrimList ["a b".data, "c d".data] []) [] =
      dedupeAndTrimList ["a b".data, "c d".data] [] :=
  ⟨by decide, dedupeAndTrimList_idem_no_truncation ["a b".data, "c d".data]
    [] (by decide)⟩

/-- Claim C7: `areTextsSimilar` returns true exactly as the specification
describes: after normalization both sides are non-empty and either equal, or
their token-set Jaccard similarity (intersection over union of the word
sets) is at least 0.6, or the shorter normalized string is at least 20
characters long and a substring of the longer. -/
theorem areTextsSimilar_matches_spec :
    ∀ a b : List Char, areTextsSimilar a b = true ↔ similarSpec a b :=
  areTextsSimilar_iff_spec

/-- Claim C8: Keyword List Extraction returns at most 5 items, returns the
empty list when no line contains a keyword, and on a "Recommendations:"
header followed by three dash-prefixed lines returns exactly those three
lines with the markers stripped. -/
theorem extractListItems_spec :
    (∀ (text : List Char) (keywords : List (List Char)),
      (extractListItems text keywords).length ≤ 5) ∧
    (∀ (text : List Char) (keywords : List (List Char)),
      (∀ line ∈ splitOnChar '\n' text,
        lineHasKeyword line keywords = false) →
      extractListItems text keywords = []) ∧
    extractListItems
      "Recommendations:\n- Eat well\n- Sleep more\n- Exercise daily".data
      ["recommendations".data] =
      ["Eat well".data, "Sleep more".data, "Exercise daily".data] := by
  refine ⟨?_, ?_, by decide⟩
  · intro text keywords
    unfold extractListItems
    cases h : findKeywordSection keywords (splitOnChar '\n' text) with
    | none => simp
    | some rest => simp [List.length_take]
  · intro text keywords h
    unfold extractListItems
    rw [findKeywordSection_eq_none keywords (splitOnChar '\n' text) h]

/-- Witness for claim C8 at a concrete input. -/
theorem extractListItems_spec_witness :
    (extractListItems "hello\nworld".data ["findings".data]).length ≤ 5 ∧
    ((∀ line ∈ splitOnChar '\n' "hello\nworld".data,
      lineHasKeyword line ["findings".data] = false) ∧
     extractListItems "hello\nworld".data ["findings".data] = []) :=
  ⟨extractListItems_spec.1 "hello\nworld".data ["findings".data],
   by decide,
   extractListItems_spec.2.1 "hello\nworld".data ["findings".data]
     (by decide)⟩

/-- Claim C9: on any string whose normalization is empty (for example one
made only of punctuation) the similarity test is not reflexive —
`similar(a,a)` is false — and the normalizer therefore keeps two identical
such entries in one list. -/
theorem similar_irreflexive_on_empty_normalization :
    (∀ a : List Char, normalizeTextForCompare a = [] →
      areTextsSimilar a a = false) ∧
    dedupeAndTrimList ["!!!".data, "!!!".data] [] =
      ["!!!".data, "!!!".data] := by
  constructor
  · intro a h
    unfold areTextsSimilar
    rw [if_pos (show ((normalizeTextForCompare a).isEmpty ||
        (normalizeTextForCompare a).isEmpty) = true by rw [h]; rfl)]
  · decide

/-- Witness for claim C9 at a concrete input. -/
theorem similar_irreflexive_witness :
    normalizeTextForCompare "!!!".data = [] ∧
    areTextsSimilar "!!!".data "!!!".data = false :=
  ⟨by decide,
   similar_irreflexive_on_empty_normalization.1 "!!!".data (by decide)⟩

set_option maxRecDepth 8000 in
/-- Claim C10: the Local Heuristic Generator backfills `keyFindings` and
`recommendations`, so both are non-empty for every descriptor, but it does
not backfill `riskWarnings`: an imaging descriptor whose description fires
no warning-producing signal yields an empty `riskWarnings` list. -/
theorem local_sections_nonempty_except_warnings :
    (∀ (rd : RecordData) (rand : ℚ),
      0 < (generateEnhancedLocalAnalysis rd rand).keyFindings.length ∧
      0 < (generateEnhancedLocalAnalysis rd rand).recommendations.length) ∧
    (generateEnhancedLocalAnalysis rdC10 0).riskWarnings = [] := by
  refine ⟨fun rd rand => ⟨?_, ?_⟩, by decide⟩
  · rw [gen_kf_eq]
    exact List.length_pos.2 (backfillFindings_ne_nil _)
  · rw [gen_recs_eq]
    exact List.length_pos.2 (backfillRecommendations_ne_nil _)
